import Mathlib

/-!
Shallow embedding of `arrow/factory.py` (class `ArrowFactory`): the dynamic
overload dispatcher `get`, and the convenience constructors `now` and
`utcnow`.  The parser collaborator (`arrow.parser.DateTimeParser`,
`arrow.parser.TzinfoParser`) and the canonical temporal type
(`arrow.arrow.Arrow`) are outside `src/`; they are modelled symbolically:
parser results are recorded as the exact query the factory issued, and each
`self.type.*` classmethod call is recorded as a constructor of `ArrowVal`
carrying the arguments the factory passed.
-/

namespace ArrowSpec

/-- Modelled from the spec: `DEFAULT_LOCALE` from `arrow.constants` is not
under `src/`; the spec's input surface gives the default locale string. -/
def DEFAULT_LOCALE : String := "en_us"

/-- A `datetime.tzinfo` value (a concrete timezone object). `named` is a
caller-supplied tzinfo instance, `utc` is `dateutil_tz.tzutc()`, `local` is
`dateutil_tz.tzlocal()`, and `parsedTz s` is the (symbolic) result of
`parser.TzinfoParser.parse(s)`. -/
inductive Tz
  | named (s : String)
  | utc
  | local
  | parsedTz (s : String)
deriving DecidableEq, Repr

/-- A timezone expression a caller may supply (`TZ_EXPR`): either a string
to be parsed by `TzinfoParser`, or an actual tzinfo object. -/
inductive TzExpr
  | str (s : String)
  | info (t : Tz)
deriving DecidableEq, Repr

/-- A positional argument to `ArrowFactory.get`, one constructor per Python
runtime kind the dispatcher distinguishes by `isinstance` checks. Numeric
payloads are symbolic identities (`Int`), since the dispatcher never
inspects their values. -/
inductive Arg
  | pyNone
  | decimal (q : Int)
  | timestampNum (q : Int)
  | arrowObj (dt : Int)
  | datetimeVal (dt : Int)
  | dateVal (d : Int)
  | tzinfoVal (t : Tz)
  | strVal (s : String)
  | structTime (t : Int)
  | tuple (xs : List Int)
  | listVal (fmts : List String)
  | other (tyName : String)
deriving DecidableEq, Repr

/-- A query issued to the parser collaborator: `iso` is
`DateTimeParser(locale).parse_iso(text, normalize_whitespace)`, `fmt` is
`DateTimeParser(locale).parse(text, fmt, normalize_whitespace)` (the format
argument is forwarded verbatim, hence of type `Arg`), and `tzp` is
`TzinfoParser.parse(s)`. -/
inductive PQuery
  | iso (locale text : String) (nws : Bool)
  | fmt (locale text : String) (f : Arg) (nws : Bool)
  | tzp (s : String)
deriving DecidableEq, Repr

/-- The parser collaborator (not under `src/`): for each query it either
raises a `ParserError` (carrying a message) or succeeds; successful results
are recorded symbolically as the query itself. -/
structure ParserCollab where
  fails : PQuery → Option String

/-- A datetime value as it flows inside `get`: either caller-supplied, or
the symbolic result of a parser query. -/
inductive DateTime
  | given (n : Int)
  | parsedIso (locale text : String) (nws : Bool)
  | parsedFmt (locale text : String) (f : Arg) (nws : Bool)
deriving DecidableEq, Repr

/-- A date value as it flows inside `get`: either caller-supplied, or the
result of `iso_to_gregorian(*arg)`. Modelled from the spec:
`arrow.util.iso_to_gregorian` is not under `src/`; the spec calls it the
standard ISO week-date-to-Gregorian conversion, kept uninterpreted here. -/
inductive DateArg
  | given (d : Int)
  | gregorianOfIso (xs : List Int)
deriving DecidableEq, Repr

/-- Modelled from the spec: `calendar.timegm` is a stdlib collaborator,
uninterpreted on the symbolic struct_time identity. -/
def calendar_timegm (t : Int) : Int := t

/-- A call to a classmethod of the factory's configured canonical type
(`self.type`), recording exactly the arguments the factory passed. A
`none` tzinfo argument means the parameter is absent or Python `None`. -/
inductive ArrowVal
  | utcnow
  | now (tz : Option Tz)
  | fromtimestamp (ts : Int) (tzinfo : Option TzExpr)
  | fromdatetime (dt : DateTime) (tzinfo : Option TzExpr)
  | fromdate (d : DateArg) (tzinfo : Option TzExpr)
  | utcfromtimestamp (ts : Int)
  | ctor (args : List Arg) (tzinfoKw : Option (Option TzExpr))
      (extra : List (String × Int))
deriving DecidableEq, Repr

/-- What a successful call hands back: either a value of the canonical
temporal type, or (never produced by this code, but representable) a raw
datetime escaping unwrapped. -/
inductive Payload
  | arrowVal (v : ArrowVal)
  | rawDatetime (dt : DateTime)
deriving DecidableEq, Repr

/-- `true` iff the payload is a canonical-type value rather than a raw
datetime. -/
def Payload.isArrow : Payload → Bool
  | .arrowVal _ => true
  | .rawDatetime _ => false

/-- Outcome of a factory call: a returned value, a raised `TypeError`
with its message, a raised parser-stage error, or a raised `IndexError`
from out-of-range tuple indexing of `args`. -/
inductive GetResult
  | ok (p : Payload)
  | typeError (msg : String)
  | parserError (e : String)
  | indexError
deriving DecidableEq, Repr

/-- The keyword arguments of a `get` call. `tzinfo = none` means the key
is absent; `tzinfo = some none` means `tzinfo=None` was passed explicitly.
`extra` are the remaining keyword arguments (name, symbolic value). -/
structure Kwargs where
  locale : Option String
  tzinfo : Option (Option TzExpr)
  normalize_whitespace : Option Bool
  extra : List (String × Int)
deriving DecidableEq, Repr

/-- A `get` call with no keyword arguments at all. -/
def kwEmpty : Kwargs := ⟨none, none, none, []⟩

/-- The `normalize_whitespace` default declared by every typed overload of
`get` (factory.py lines 42, 63, 75, 87). -/
def overloadNormalizeWhitespaceDefault : Bool := false

/-- The `normalize_whitespace` default the implementation substitutes when
the keyword is absent (factory.py line 95:
`kwargs.pop("normalize_whitespace", True)`). -/
def implNormalizeWhitespaceDefault : Bool := true

/-- The Python `repr` of the runtime type of an argument, as interpolated
into the `TypeError` messages. -/
def typeName : Arg → String
  | .pyNone => "<class 'NoneType'>"
  | .decimal _ => "<class 'decimal.Decimal'>"
  | .timestampNum _ => "<class 'float'>"
  | .arrowObj _ => "<class 'arrow.arrow.Arrow'>"
  | .datetimeVal _ => "<class 'datetime.datetime'>"
  | .dateVal _ => "<class 'datetime.date'>"
  | .tzinfoVal _ => "<class 'datetime.tzinfo'>"
  | .strVal _ => "<class 'str'>"
  | .structTime _ => "<class 'time.struct_time'>"
  | .tuple _ => "<class 'tuple'>"
  | .listVal _ => "<class 'list'>"
  | .other ty => ty

/-- Modelled from the spec: `arrow.util.is_timestamp` is not under `src/`;
per the spec's input normalization it holds exactly for the
timestamp-number arguments of this model (never for `bool`, containers,
or other objects; the string case is short-circuited away at the call
site by `not isinstance(arg, str)`). -/
def is_timestamp : Arg → Bool
  | .timestampNum _ => true
  | _ => false

/-- `isinstance(arg_2, (dt_tzinfo, str))` (factory.py lines 156, 164). -/
def isTzStrLike : Arg → Bool
  | .tzinfoVal _ => true
  | .strVal _ => true
  | _ => false

/-- `isinstance(arg_2, (str, list))` (factory.py line 171). -/
def isStrOrList : Arg → Bool
  | .strVal _ => true
  | .listVal _ => true
  | _ => false

/-- The `arg_count == 1` elif chain of `get` (factory.py lines 113-150),
after the Decimal-to-float conversion. The `isinstance` checks are on
disjoint runtime kinds in this model, so an ordered chain and a pattern
match agree. -/
def getSingle (P : ParserCollab) (locale : String) (nws : Bool)
    (tz : Option TzExpr) : Arg → GetResult
  | .pyNone => .ok (.arrowVal .utcnow)
  | .decimal q => .ok (.arrowVal (.fromtimestamp q none))
  | .timestampNum q => .ok (.arrowVal (.fromtimestamp q none))
  | .arrowObj dt => .ok (.arrowVal (.fromdatetime (.given dt) tz))
  | .datetimeVal dt => .ok (.arrowVal (.fromdatetime (.given dt) none))
  | .dateVal d => .ok (.arrowVal (.fromdate (.given d) none))
  | .tzinfoVal t => .ok (.arrowVal (.now (some t)))
  | .strVal s =>
      match P.fails (.iso locale s nws) with
      | some e => .parserError e
      | none => .ok (.arrowVal (.fromdatetime (.parsedIso locale s nws) none))
  | .structTime t => .ok (.arrowVal (.utcfromtimestamp (calendar_timegm t)))
  | .tuple xs =>
      if xs.length == 3 then
        .ok (.arrowVal (.fromdate (.gregorianOfIso xs) none))
      else
        .typeError
          ("Cannot parse single argument of type " ++ typeName (.tuple xs) ++ ".")
  | a => .typeError ("Cannot parse single argument of type " ++ typeName a ++ ".")

/-- The `arg_count == 2` branch of `get` (factory.py lines 152-180). -/
def getPair (P : ParserCollab) (locale : String) (nws : Bool)
    (a1 a2 : Arg) : GetResult :=
  match a1 with
  | .datetimeVal dt =>
      if isTzStrLike a2 then
        .ok (.arrowVal (.fromdatetime (.given dt) none))
      else
        .typeError
          ("Cannot parse two arguments of types 'datetime', " ++ typeName a2 ++ ".")
  | .dateVal d =>
      if isTzStrLike a2 then
        .ok (.arrowVal (.fromdate (.given d) none))
      else
        .typeError
          ("Cannot parse two arguments of types 'date', " ++ typeName a2 ++ ".")
  | .strVal s =>
      if isStrOrList a2 then
        match P.fails (.fmt locale s a2 nws) with
        | some e => .parserError e
        | none =>
            .ok (.arrowVal (.fromdatetime (.parsedFmt locale s a2 nws) none))
      else
        .typeError
          ("Cannot parse two arguments of types " ++ typeName a1 ++ " and "
            ++ typeName a2 ++ ".")
  | _ =>
      .typeError
        ("Cannot parse two arguments of types " ++ typeName a1 ++ " and "
          ++ typeName a2 ++ ".")

/-- `ArrowFactory.get` (factory.py lines 91-183), embedded faithfully:
keyword extraction and the `arg_count` rewrites (lines 92-101), the
zero-argument branch (103-111), the Decimal conversion and single-argument
chain (113-150), the two-argument branch (152-180), and the constructor
fallthrough (182-183). `args[i]` is modelled by `List.get?` with an
explicit `indexError` outcome. -/
def ArrowFactory.get (P : ParserCollab) (args : List Arg) (kw : Kwargs) :
    GetResult :=
  let locale := kw.locale.getD DEFAULT_LOCALE
  let tz : Option TzExpr := (kw.tzinfo.getD none)
  let nws := kw.normalize_whitespace.getD implNormalizeWhitespaceDefault
  let kwLen := (if kw.tzinfo.isSome then 1 else 0) + kw.extra.length
  let argCount :=
    if kwLen > 1 then 2
    else if kwLen == 1 && tz.isNone then 3
    else args.length
  if argCount == 0 then
    match tz with
    | some (.str s) =>
        match P.fails (.tzp s) with
        | some e => .parserError e
        | none => .ok (.arrowVal (.now (some .utc)))
    | some (.info _) => .ok (.arrowVal (.now none))
    | none => .ok (.arrowVal .utcnow)
  else if argCount == 1 then
    match args.get? 0 with
    | none => .indexError
    | some a0 =>
        let arg := match a0 with
          | .decimal q => Arg.timestampNum q
          | a => a
        getSingle P locale nws tz arg
  else if argCount == 2 then
    match args.get? 0 with
    | none => .indexError
    | some a1 =>
        match args.get? 1 with
        | none => .indexError
        | some a2 => getPair P locale nws a1 a2
  else
    .ok (.arrowVal (.ctor args kw.tzinfo kw.extra))

/-- `ArrowFactory.utcnow` (factory.py lines 185-195). -/
def ArrowFactory.utcnow : GetResult := .ok (.arrowVal .utcnow)

/-- `ArrowFactory.now` (factory.py lines 197-224). -/
def ArrowFactory.now (P : ParserCollab) (tz : Option TzExpr) : GetResult :=
  match tz with
  | none => .ok (.arrowVal (.now (some .local)))
  | some (.info t) => .ok (.arrowVal (.now (some t)))
  | some (.str s) =>
      match P.fails (.tzp s) with
      | some e => .parserError e
      | none => .ok (.arrowVal (.now (some (.parsedTz s))))

/-- A parser collaborator that never fails, for concrete evaluations. -/
def P0 : ParserCollab := ⟨fun _ => none⟩

/-- Single-argument shapes whose `get` branch never reads the caller's
timezone in this code: timestamp numbers, datetimes, dates, strings, and
ISO 3-tuples. -/
def tzInsensitiveShape : Arg → Bool
  | .timestampNum _ => true
  | .datetimeVal _ => true
  | .dateVal _ => true
  | .strVal _ => true
  | .tuple xs => xs.length == 3
  | _ => false

/-- Single-argument shapes outside the dispatcher's supported list. -/
def unsupportedSingle : Arg → Bool
  | .other _ => true
  | .listVal _ => true
  | .tuple xs => !(xs.length == 3)
  | _ => false

/-- Two-argument pairings the dispatcher supports. -/
def supportedPair : Arg → Arg → Bool
  | .datetimeVal _, b => isTzStrLike b
  | .dateVal _, b => isTzStrLike b
  | .strVal _, b => isStrOrList b
  | _, _ => false

/-- The `TypeError` message raised for an unsupported two-argument call
(factory.py lines 159-161, 167-169, 178-180). -/
def pairErrorMsg : Arg → Arg → String
  | .datetimeVal _, b =>
      "Cannot parse two arguments of types 'datetime', " ++ typeName b ++ "."
  | .dateVal _, b =>
      "Cannot parse two arguments of types 'date', " ++ typeName b ++ "."
  | a, b =>
      "Cannot parse two arguments of types " ++ typeName a ++ " and "
        ++ typeName b ++ "."

/-- `true` unless the result is a returned raw datetime. -/
def GetResult.okArrow : GetResult → Bool
  | .ok p => p.isArrow
  | _ => true

theorem getSingle_okArrow (P : ParserCollab) (locale : String) (nws : Bool)
    (tz : Option TzExpr) (a : Arg) :
    (getSingle P locale nws tz a).okArrow = true := by
  cases a <;> first
    | rfl
    | (simp only [getSingle]; split <;> rfl)

theorem getPair_okArrow (P : ParserCollab) (locale : String) (nws : Bool)
    (a1 a2 : Arg) : (getPair P locale nws a1 a2).okArrow = true := by
  cases a1 <;> first
    | rfl
    | (simp only [getPair]; split <;> first
        | rfl
        | (split <;> rfl))

theorem get_okArrow (P : ParserCollab) (args : List Arg) (kw : Kwargs) :
    (ArrowFactory.get P args kw).okArrow = true := by
  simp only [ArrowFactory.get]
  repeat' split
  all_goals first
    | rfl
    | apply getSingle_okArrow
    | apply getPair_okArrow

theorem now_okArrow (P : ParserCollab) (tz : Option TzExpr) :
    (ArrowFactory.now P tz).okArrow = true := by
  unfold ArrowFactory.now
  split
  · rfl
  · rfl
  · split <;> rfl

/-- C1: the spec and the typed overloads state that a `get` call omitting
the `normalize_whitespace` keyword invokes the parser with
`normalize_whitespace = False`. Evaluating the embedded implementation at
`get("2021-01-01")` shows it invokes `parse_iso` with `True` instead
(factory.py line 95 substitutes `True` for the absent keyword). -/
theorem C1_code_passes_true_when_keyword_omitted :
    ArrowFactory.get P0 [.strVal "2021-01-01"] kwEmpty =
      .ok (.arrowVal (.fromdatetime
        (.parsedIso DEFAULT_LOCALE "2021-01-01" true) none)) := rfl

/-- C2: the claim says no exception other than a `TypeError` or a
parser-stage error can escape `get`, in particular no out-of-range tuple
indexing of `args`. Evaluating the embedded implementation at
`get(year=2021, month=1, day=1)` (three keyword arguments, no positional
arguments) shows the `len(kwargs) > 1` rewrite sets `arg_count = 2`
(factory.py lines 97-98), so line 153 indexes `args[0]` of an empty tuple
and an `IndexError` escapes. -/
theorem C2_index_error_escapes :
    ArrowFactory.get P0 []
      ⟨none, none, none, [("year", 2021), ("month", 1), ("day", 1)]⟩ =
      .indexError := rfl

/-- C5: every typed overload of `get` declares
`normalize_whitespace: bool = False`, while the implementation substitutes
`True` when the keyword is absent, and that `True` is what reaches the
parser. -/
theorem C5_overload_and_impl_defaults_disagree :
    overloadNormalizeWhitespaceDefault = false ∧
    implNormalizeWhitespaceDefault = true ∧
    ArrowFactory.get P0 [.strVal "x"] kwEmpty =
      .ok (.arrowVal (.fromdatetime
        (.parsedIso DEFAULT_LOCALE "x" implNormalizeWhitespaceDefault) none)) :=
  ⟨rfl, rfl, rfl⟩

/-- C9: `get(None)` does not raise: it returns `utcnow`, the same result
as calling `get` with no arguments and no timezone. -/
theorem C9_none_returns_utcnow (P : ParserCollab) :
    ArrowFactory.get P [.pyNone] kwEmpty = .ok (.arrowVal .utcnow) ∧
    ArrowFactory.get P [.pyNone] kwEmpty = ArrowFactory.get P [] kwEmpty :=
  ⟨rfl, rfl⟩

/-- C10: a Decimal single positional argument is converted to a float and
handled by the timestamp branch (`fromtimestamp`), producing the same
result as `get(float(d))`, for any locale / tzinfo / normalize_whitespace
keywords. -/
theorem C10_decimal_via_timestamp (P : ParserCollab) (q : Int)
    (lo : Option String) (nw : Option Bool) (tk : Option TzExpr) :
    ArrowFactory.get P [.decimal q] ⟨lo, tk.map some, nw, []⟩ =
      .ok (.arrowVal (.fromtimestamp q none)) ∧
    ArrowFactory.get P [.decimal q] ⟨lo, tk.map some, nw, []⟩ =
      ArrowFactory.get P [.timestampNum q] ⟨lo, tk.map some, nw, []⟩ := by
  cases tk <;> exact ⟨rfl, rfl⟩

/-- C3: a single string positional argument with no format is handed to
the ISO-8601 recognizer path (`parse_iso`); a string plus an explicit
format or format list is handed to the format-directed `parse`; in both
cases the parsed datetime is wrapped into the canonical type via
`fromdatetime`. -/
theorem C3_dispatch_paths (P : ParserCollab) (s : String) (f : Arg)
    (lo : Option String) (nw : Option Bool) (tk : Option TzExpr)
    (hf : isStrOrList f = true) :
    (ArrowFactory.get P [.strVal s] ⟨lo, tk.map some, nw, []⟩ =
      match P.fails (.iso (lo.getD DEFAULT_LOCALE) s
          (nw.getD implNormalizeWhitespaceDefault)) with
      | some e => .parserError e
      | none => .ok (.arrowVal (.fromdatetime
          (.parsedIso (lo.getD DEFAULT_LOCALE) s
            (nw.getD implNormalizeWhitespaceDefault)) none))) ∧
    (ArrowFactory.get P [.strVal s, f] ⟨lo, tk.map some, nw, []⟩ =
      match P.fails (.fmt (lo.getD DEFAULT_LOCALE) s f
          (nw.getD implNormalizeWhitespaceDefault)) with
      | some e => .parserError e
      | none => .ok (.arrowVal (.fromdatetime
          (.parsedFmt (lo.getD DEFAULT_LOCALE) s f
            (nw.getD implNormalizeWhitespaceDefault)) none))) := by
  constructor
  · cases tk <;> rfl
  · cases f <;> simp [isStrOrList] at hf <;> cases tk <;> rfl

theorem C3_dispatch_paths_witness :
    (ArrowFactory.get P0 [.strVal "2021-01-01"] ⟨none, none, none, []⟩ =
      .ok (.arrowVal (.fromdatetime
        (.parsedIso DEFAULT_LOCALE "2021-01-01" true) none))) ∧
    (ArrowFactory.get P0 [.strVal "2021-01-01", .strVal "YYYY-MM-DD"]
        ⟨none, none, none, []⟩ =
      .ok (.arrowVal (.fromdatetime
        (.parsedFmt DEFAULT_LOCALE "2021-01-01" (.strVal "YYYY-MM-DD") true)
        none))) :=
  C3_dispatch_paths P0 "2021-01-01" (.strVal "YYYY-MM-DD") none none none rfl

/-- C4: the caller-supplied timezone never influences the result — for a
single positional argument of a timezone-insensitive shape (timestamp
number, datetime, date, string, ISO 3-tuple), two runs differing only in
the `tzinfo` keyword agree; and for two-positional calls `(datetime, tz)`
or `(date, tz)`, two runs differing only in the second positional
timezone argument agree. -/
theorem C4_tz_noninterference (P : ParserCollab) (a : Arg) (dt d : Int)
    (b b' : Arg) (lo : Option String) (nw : Option Bool) (tA tB : TzExpr)
    (ha : tzInsensitiveShape a = true)
    (hb : isTzStrLike b = true) (hb' : isTzStrLike b' = true) :
    ArrowFactory.get P [a] ⟨lo, some (some tA), nw, []⟩ =
      ArrowFactory.get P [a] ⟨lo, some (some tB), nw, []⟩ ∧
    ArrowFactory.get P [.datetimeVal dt, b] ⟨lo, none, nw, []⟩ =
      ArrowFactory.get P [.datetimeVal dt, b'] ⟨lo, none, nw, []⟩ ∧
    ArrowFactory.get P [.dateVal d, b] ⟨lo, none, nw, []⟩ =
      ArrowFactory.get P [.dateVal d, b'] ⟨lo, none, nw, []⟩ := by
  refine ⟨?_, ?_, ?_⟩
  · cases a <;> first
      | rfl
      | simp [tzInsensitiveShape] at ha
  · cases b <;> simp [isTzStrLike] at hb <;>
      cases b' <;> simp [isTzStrLike] at hb' <;> rfl
  · cases b <;> simp [isTzStrLike] at hb <;>
      cases b' <;> simp [isTzStrLike] at hb' <;> rfl

theorem C4_tz_noninterference_witness :
    (ArrowFactory.get P0 [.timestampNum 0]
        ⟨none, some (some (.info .utc)), none, []⟩ =
      ArrowFactory.get P0 [.timestampNum 0]
        ⟨none, some (some (.str "US/Pacific")), none, []⟩) ∧
    (ArrowFactory.get P0 [.datetimeVal 0, .tzinfoVal .utc]
        ⟨none, none, none, []⟩ =
      ArrowFactory.get P0 [.datetimeVal 0, .strVal "US/Pacific"]
        ⟨none, none, none, []⟩) ∧
    (ArrowFactory.get P0 [.dateVal 0, .tzinfoVal .utc]
        ⟨none, none, none, []⟩ =
      ArrowFactory.get P0 [.dateVal 0, .strVal "US/Pacific"]
        ⟨none, none, none, []⟩) :=
  C4_tz_noninterference P0 (.timestampNum 0) 0 0 (.tzinfoVal .utc)
    (.strVal "US/Pacific") none none (.info .utc) (.str "US/Pacific")
    rfl rfl rfl

/-- C6: every single positional argument outside the supported kinds, and
every two-positional-argument call whose shapes match no supported
pairing, raises a `TypeError` whose message names the offending type; no
default value is substituted. -/
theorem C6_unsupported_shapes_raise (P : ParserCollab) (a a1 a2 : Arg)
    (lo : Option String) (nw : Option Bool) (tk : Option TzExpr)
    (h1 : unsupportedSingle a = true) (h2 : supportedPair a1 a2 = false) :
    ArrowFactory.get P [a] ⟨lo, tk.map some, nw, []⟩ =
      .typeError
        ("Cannot parse single argument of type " ++ typeName a ++ ".") ∧
    ArrowFactory.get P [a1, a2] ⟨lo, tk.map some, nw, []⟩ =
      .typeError (pairErrorMsg a1 a2) := by
  constructor
  · cases a <;> cases tk <;>
      simp_all [unsupportedSingle, ArrowFactory.get, getSingle, typeName]
  · cases a1 <;> cases tk <;>
      simp_all [supportedPair, isTzStrLike, isStrOrList, ArrowFactory.get,
        getPair, pairErrorMsg, typeName]

theorem C6_unsupported_shapes_raise_witness :
    (ArrowFactory.get P0 [.tuple [2021, 1]] ⟨none, none, none, []⟩ =
      .typeError
        ("Cannot parse single argument of type " ++
          typeName (.tuple [2021, 1]) ++ ".")) ∧
    (ArrowFactory.get P0 [.datetimeVal 0, .timestampNum 7]
        ⟨none, none, none, []⟩ =
      .typeError (pairErrorMsg (.datetimeVal 0) (.timestampNum 7))) :=
  C6_unsupported_shapes_raise P0 (.tuple [2021, 1]) (.datetimeVal 0)
    (.timestampNum 7) none none none (by decide) rfl

/-- C7: the formats argument may be a single format string or a list of
format strings: `get(text, formats)` with `formats` a string or a list is
accepted and forwarded unchanged to the parser's multi-format `parse`. -/
theorem C7_formats_forwarded (P : ParserCollab) (s : String) (f : Arg)
    (lo : Option String) (nw : Option Bool) (tk : Option TzExpr)
    (hf : isStrOrList f = true) :
    ArrowFactory.get P [.strVal s, f] ⟨lo, tk.map some, nw, []⟩ =
      match P.fails (.fmt (lo.getD DEFAULT_LOCALE) s f
          (nw.getD implNormalizeWhitespaceDefault)) with
      | some e => .parserError e
      | none => .ok (.arrowVal (.fromdatetime
          (.parsedFmt (lo.getD DEFAULT_LOCALE) s f
            (nw.getD implNormalizeWhitespaceDefault)) none)) := by
  cases f <;> simp [isStrOrList] at hf <;> cases tk <;> rfl

theorem C7_formats_forwarded_witness :
    ArrowFactory.get P0
      [.strVal "5/1/2021", .listVal ["M/D/YYYY", "YYYY-MM-DD"]]
      ⟨none, none, none, []⟩ =
      .ok (.arrowVal (.fromdatetime
        (.parsedFmt DEFAULT_LOCALE "5/1/2021"
          (.listVal ["M/D/YYYY", "YYYY-MM-DD"]) true) none)) :=
  C7_formats_forwarded P0 "5/1/2021" (.listVal ["M/D/YYYY", "YYYY-MM-DD"])
    none none none rfl

/-- C8: every successful call to `get`, `now`, or `utcnow` returns a value
of the single configured canonical temporal type (a `self.type`
classmethod result), never a raw datetime. -/
theorem C8_canonical_type (P : ParserCollab) (args : List Arg)
    (kw : Kwargs) (tz : Option TzExpr) (p q r : Payload)
    (hg : ArrowFactory.get P args kw = .ok p)
    (hn : ArrowFactory.now P tz = .ok q)
    (hu : ArrowFactory.utcnow = .ok r) :
    p.isArrow = true ∧ q.isArrow = true ∧ r.isArrow = true := by
  refine ⟨?_, ?_, ?_⟩
  · have h := get_okArrow P args kw
    rw [hg] at h
    exact h
  · have h := now_okArrow P tz
    rw [hn] at h
    exact h
  · have h : r = .arrowVal .utcnow := by
      have := hu
      simp only [ArrowFactory.utcnow, GetResult.ok.injEq] at this
      exact this.symm
    rw [h]
    rfl

theorem C8_canonical_type_witness :
    Payload.isArrow (.arrowVal .utcnow) = true ∧
    Payload.isArrow (.arrowVal (.now (some .local))) = true ∧
    Payload.isArrow (.arrowVal .utcnow) = true :=
  C8_canonical_type P0 [] kwEmpty none (.arrowVal .utcnow)
    (.arrowVal (.now (some .local))) (.arrowVal .utcnow) rfl rfl rfl

end ArrowSpec
